import Mathlib

set_option autoImplicit false

/-!
Verification of the pmgr terminal package-manager front-end.

The Rust sources are shallowly embedded: pure string processing becomes Lean
functions on `String`/`List`, subprocess interaction is made explicit by
passing the outcome of the spawn (`Except String ProcOutput` for captured
output, `Except String Bool` for an inherited-stdio exit status) as an
argument, and the TUI event loop becomes a step function on an `App` record.
-/

namespace Pmgr

/-! ## String helpers mirroring the Rust standard library -/

/-- Rust `str::split_whitespace` on the character list of a string:
maximal runs of non-whitespace characters, in order, empty runs skipped.
The accumulator holds the current run in reverse. -/
def splitWsAux : List Char → List Char → List String
  | [], cur => if cur.isEmpty then [] else [String.mk cur.reverse]
  | c :: cs, cur =>
    if c.isWhitespace then
      (if cur.isEmpty then [] else [String.mk cur.reverse]) ++ splitWsAux cs []
    else
      splitWsAux cs (c :: cur)

/-- Rust `str::split_whitespace`. -/
def splitWhitespace (s : String) : List String :=
  splitWsAux s.data []

/-- Strip one trailing carriage return from a line accumulated in reverse. -/
def stripCR (cur : List Char) : List Char :=
  match cur with
  | '\r' :: rest => rest
  | _ => cur

/-- Rust `str::lines` on the character list: split at `\n`, strip one trailing
`\r` per line, and do not produce a final empty line for a trailing newline.
The accumulator holds the current line in reverse. -/
def rustLinesAux : List Char → List Char → List String
  | [], cur => if cur.isEmpty then [] else [String.mk (stripCR cur).reverse]
  | c :: cs, cur =>
    if c = '\n' then String.mk (stripCR cur).reverse :: rustLinesAux cs []
    else rustLinesAux cs (c :: cur)

/-- Rust `str::lines`. -/
def rustLines (s : String) : List String :=
  rustLinesAux s.data []

/-- Rust `String::pop`: drop the last character. -/
def dropLastChar (s : String) : String :=
  String.mk s.data.dropLast

/-! ## Package data model and pacman output parsing (`src/package/mod.rs`) -/

structure Package where
  name : String
  version : String
  description : String
  repository : String
  deriving Repr, DecidableEq

/-- The captured outcome of a subprocess that ran to completion:
its exit status (`success`) and its standard output. -/
structure ProcOutput where
  success : Bool
  stdout : String
  deriving Repr, DecidableEq

/-- The per-line closure of `PackageManager::list_available`: a line of
`pacman -Sl` output with at least three whitespace-separated fields becomes a
`Package`; `parts.get(3..)` is joined with single spaces for the description. -/
def parseSlLine (line : String) : Option Package :=
  let parts := splitWhitespace line
  if parts.length ≥ 3 then
    some { repository := parts.getD 0 ""
           name := parts.getD 1 ""
           version := parts.getD 2 ""
           description := " ".intercalate (parts.drop 3) }
  else
    none

/-- `PackageManager::get_cmd`. -/
def getCmd (use_yay : Bool) : String :=
  if use_yay then "yay" else "pacman"

/-- `PackageManager::list_available`, as a function of the outcome of spawning
`pacman -Sl` (`Except.error` models a failed spawn, i.e. `output()` → `Err`). -/
def list_available (spawn : Except String ProcOutput) : Except String (List Package) :=
  match spawn with
  | .error _ => .error "Failed to list available packages"
  | .ok out =>
    if !out.success then .error "Package manager command failed"
    else .ok ((rustLines out.stdout).filterMap parseSlLine)

/-- `PackageManager::list_installed`, as a function of the spawn outcome of
`pacman -Qq`. -/
def list_installed (spawn : Except String ProcOutput) : Except String (List String) :=
  match spawn with
  | .error _ => .error "Failed to list installed packages"
  | .ok out =>
    if !out.success then .error "Package manager command failed"
    else .ok (rustLines out.stdout)

/-- `PackageManager::get_info`, as a function of the spawn outcome of
`pacman -Qi <package>` (or `-Si` for a not-installed package). -/
def get_info (package : String) (spawn : Except String ProcOutput) : Except String String :=
  match spawn with
  | .error _ => .error "Failed to get package info"
  | .ok out =>
    if !out.success then .error ("Package not found: " ++ package)
    else .ok out.stdout

/-- The command line `PackageManager::install` spawns; `none` when the package
list is empty, in which case no subprocess is started at all. -/
def installInvocation (use_yay : Bool) (packages : List String) : Option (String × List String) :=
  if packages.isEmpty then none
  else some (getCmd use_yay, "-S" :: packages)

/-- The command line `PackageManager::remove` spawns; `none` when the package
list is empty, in which case no subprocess is started at all. -/
def removeInvocation (use_yay : Bool) (packages : List String) : Option (String × List String) :=
  if packages.isEmpty then none
  else some (getCmd use_yay, "-Rns" :: packages)

/-- `PackageManager::install`, as a function of its child's exit outcome
(`Except.error` = `status()` failed, `Except.ok b` = the child exited and `b`
is `status.success()`). The status argument is irrelevant when the package
list is empty: the function returns `Ok(())` before any spawn. -/
def install (packages : List String) (status : Except String Bool) : Except String Unit :=
  if packages.isEmpty then .ok ()
  else
    match status with
    | .error _ => .error "Failed to install packages"
    | .ok true => .ok ()
    | .ok false => .error "Installation failed"

/-- `PackageManager::remove`, as a function of its child's exit outcome. -/
def remove (packages : List String) (status : Except String Bool) : Except String Unit :=
  if packages.isEmpty then .ok ()
  else
    match status with
    | .error _ => .error "Failed to remove packages"
    | .ok true => .ok ()
    | .ok false => .error "Removal failed"

/-- One line of the `pacman -Ss` parsing loop in `PackageManager::search`:
the accumulator is the packages collected so far plus the pending
`current_pkg`. A line starting with a space is a description line and
finishes the pending package; otherwise a `repo/name [version ...]` line
starts a new pending package. -/
def searchStep (acc : List Package × Option Package) (line : String) :
    List Package × Option Package :=
  if line.startsWith " " then
    match acc.2 with
    | some pkg => (acc.1 ++ [{ pkg with description := line.trim }], none)
    | none => acc
  else
    let parts := splitWhitespace line
    if parts.isEmpty then acc
    else
      let nameParts := (parts.getD 0 "").splitOn "/"
      if nameParts.length ≥ 2 then
        (acc.1, some { repository := nameParts.getD 0 ""
                       name := nameParts.getD 1 ""
                       version := parts.getD 1 ""
                       description := "" })
      else acc

/-- The whole `pacman -Ss` output parse of `PackageManager::search`. -/
def parseSearchOutput (stdout : String) : List Package :=
  ((rustLines stdout).foldl searchStep ([], none)).1

/-- `PackageManager::search`, as a function of the spawn outcome of
`pacman -Ss <query>`. Unlike the other operations, the code inspects only
`output.stdout` and never checks `output.status` after a successful spawn. -/
def search (spawn : Except String ProcOutput) : Except String (List Package) :=
  match spawn with
  | .error _ => .error "Failed to search packages"
  | .ok out => .ok (parseSearchOutput out.stdout)

/-! ## Themes and persisted settings (`src/ui/theme.rs`, `src/config/settings.rs`) -/

inductive Theme
  | Default
  | Nord
  | Dracula
  | Dark
  | White
  deriving Repr, DecidableEq

structure Settings where
  theme : Theme
  deriving Repr, DecidableEq

/-- `impl Default for Settings`. -/
def Settings.default : Settings := { theme := Theme.Default }

/-- The filesystem and parser environment `load_settings` runs against:
`settings_path` is `none` when no config directory can be determined or the
directory cannot be created, `read_to_string` is `none` when the read fails,
and `parse_settings` is `serde_json::from_str` (`none` = parse error). -/
structure FsEnv where
  settings_path : Option String
  file_exists : Bool
  read_to_string : Option String
  parse_settings : String → Option Settings

/-- `load_settings`: total, falling through to `Settings::default()` on every
failure path. -/
def load_settings (env : FsEnv) : Settings :=
  match env.settings_path with
  | some _ =>
    if env.file_exists then
      match env.read_to_string with
      | some content =>
        match env.parse_settings content with
        | some settings => settings
        | none => Settings.default
      | none => Settings.default
    else Settings.default
  | none => Settings.default

/-! ## Fuzzy filtering (`App::filter_items`, `src/ui/app.rs`)

The skim fuzzy matcher is an external crate; it enters the embedding as an
abstract scoring function `String → String → Option Int` (`none` = the item
does not match the query). Rust `Vec::sort_by` is a stable sort; it is
modelled by `List.mergeSort`, which is also stable. -/

/-- The intermediate `scored_items` list of `App::filter_items`: each item of
the full list that the matcher accepts, paired with its score, in original
list order. -/
def scoredOf (fm : String → String → Option Int) (items : List String) (q : String) :
    List (String × Int) :=
  items.filterMap (fun item => (fm item q).map (fun score => (item, score)))

/-- The comparator of `scored_items.sort_by(|a, b| b.1.cmp(&a.1))`: entry `a`
may precede entry `b` exactly when `a`'s score is at least `b`'s. -/
def fuzzyLE (a b : String × Int) : Bool := decide (b.2 ≤ a.2)

/-- The pure core of `App::filter_items`: empty query short-circuits to the
full list with score 0; otherwise the scored list is stably sorted in
descending score order (`Vec::sort_by` is stable, modelled by `mergeSort`). -/
def filterItems (fm : String → String → Option Int) (items : List String) (q : String) :
    List (String × Int) :=
  if q = "" then items.map (fun item => (item, (0 : Int)))
  else (scoredOf fm items q).mergeSort fuzzyLE

/-! ## Preview loading (`App::request_preview`, `App::check_preview_updates`) -/

/-- `HashMap::get` on the preview cache (modelled as an association list where
an insert prepends, so the most recent insert for a key wins). -/
def cacheLookup (cache : List (String × String)) (k : String) : Option String :=
  match cache with
  | [] => none
  | (k2, v) :: rest => if k2 = k then some v else cacheLookup rest k

/-- `HashMap::insert` on the preview cache. -/
def cacheInsert (cache : List (String × String)) (k v : String) : List (String × String) :=
  (k, v) :: cache

/-- The preview-related state of `App`: the cache, the item currently being
previewed, the visible preview pane text, and the multiset of spawned worker
threads whose results have not yet been drained (`in_flight`). -/
structure PreviewState where
  preview_cache : List (String × String)
  current_preview_item : Option String
  preview_content : String
  in_flight : List String
  deriving Repr, DecidableEq

/-- `App::request_preview`, given the currently selected item (`none` when the
filtered list is empty). A cache hit updates the pane from the cache; a miss
when the item is not already the current preview item spawns a worker, pushing
the item onto `in_flight`. -/
def requestPreview (s : PreviewState) (selectedItem : Option String) : PreviewState :=
  match selectedItem with
  | none => s
  | some item =>
    match cacheLookup s.preview_cache item with
    | some cached =>
      { s with preview_content := cached, current_preview_item := some item }
    | none =>
      if s.current_preview_item = some item then s
      else
        { s with current_preview_item := some item
                 preview_content := "Loading preview..."
                 in_flight := item :: s.in_flight }

/-- One `(item, content)` result drained by `App::check_preview_updates`: the
result is always cached, the pane is updated only when the item is still the
current preview item, and the delivering worker leaves `in_flight`. -/
def deliverPreview (s : PreviewState) (item content : String) : PreviewState :=
  { s with preview_cache := cacheInsert s.preview_cache item content
           preview_content :=
             if s.current_preview_item = some item then content else s.preview_content
           in_flight := s.in_flight.erase item }

/-! ## Modal state (`src/ui/types.rs`, `src/ui/update_window.rs`) -/

inductive PreviewLayout
  | Vertical
  | Horizontal
  deriving Repr, DecidableEq

inductive ActionType
  | Install
  | Remove
  deriving Repr, DecidableEq

structure ConfirmDialog where
  active : Bool
  action_type : ActionType
  packages : List String
  confirmed : Bool
  scroll : Nat
  deriving Repr, DecidableEq

/-- `u16::saturating_add(1)`. -/
def satAdd16 (n : Nat) : Nat := min (n + 1) 65535

def ConfirmDialog.new : ConfirmDialog :=
  { active := false, action_type := .Install, packages := [], confirmed := false, scroll := 0 }

def ConfirmDialog.show (d : ConfirmDialog) (a : ActionType) (pkgs : List String) : ConfirmDialog :=
  { d with active := true, action_type := a, packages := pkgs, confirmed := false, scroll := 0 }

def ConfirmDialog.confirm (d : ConfirmDialog) : ConfirmDialog :=
  { d with confirmed := true, active := false, scroll := 0 }

def ConfirmDialog.cancel (d : ConfirmDialog) : ConfirmDialog :=
  { d with confirmed := false, active := false, scroll := 0 }

def ConfirmDialog.scroll_down (d : ConfirmDialog) : ConfirmDialog :=
  { d with scroll := satAdd16 d.scroll }

def ConfirmDialog.scroll_up (d : ConfirmDialog) : ConfirmDialog :=
  { d with scroll := d.scroll - 1 }

/-- The long-running-operation window. The receiving end of the worker channel
is modelled by feeding the pending `UpdateMessage`s to `check_updates`
explicitly. -/
structure SystemUpdateWindow where
  active : Bool
  output : List String
  completed : Bool
  has_error : Bool
  just_closed : Bool
  title : String
  cancelled_by_user : Bool
  operation_type : Option String
  was_successful : Bool
  deriving Repr, DecidableEq

inductive UpdateMessage
  | output (line : String)
  | completed (success : Bool)
  deriving Repr, DecidableEq

def SystemUpdateWindow.new : SystemUpdateWindow :=
  { active := false, output := [], completed := false, has_error := false
    just_closed := false, title := "", cancelled_by_user := false
    operation_type := none, was_successful := false }

/-- One message processed by `SystemUpdateWindow::check_updates`. -/
def SystemUpdateWindow.apply_message (w : SystemUpdateWindow) (m : UpdateMessage) :
    SystemUpdateWindow :=
  match m with
  | .output line => { w with output := w.output ++ [line] }
  | .completed success => { w with completed := true, has_error := !success }

/-- `SystemUpdateWindow::check_updates`: drain the pending channel messages. -/
def SystemUpdateWindow.check_updates (w : SystemUpdateWindow) (msgs : List UpdateMessage) :
    SystemUpdateWindow :=
  msgs.foldl SystemUpdateWindow.apply_message w

/-- The synchronous part of `SystemUpdateWindow::start_command` (the spawned
worker reports back through the message channel). -/
def SystemUpdateWindow.start_command (w : SystemUpdateWindow)
    (initial_message title : String) : SystemUpdateWindow :=
  { w with active := true, output := [initial_message], completed := false
           has_error := false, title := title }

/-- `SystemUpdateWindow::start_update`. -/
def SystemUpdateWindow.start_update (w : SystemUpdateWindow) : SystemUpdateWindow :=
  SystemUpdateWindow.start_command { w with operation_type := some "system_update" }
    "Starting system update..." "System Update"

/-- `SystemUpdateWindow::should_auto_close`. -/
def SystemUpdateWindow.should_auto_close (w : SystemUpdateWindow) : Bool :=
  w.completed && !w.has_error

/-- `SystemUpdateWindow::close`. -/
def SystemUpdateWindow.close (w : SystemUpdateWindow) (cancelled_by_user : Bool) :
    SystemUpdateWindow :=
  { w with was_successful := w.completed && !w.has_error
           active := false, output := [], completed := false, has_error := false
           just_closed := true, cancelled_by_user := cancelled_by_user }

/-- The auto-close step at the top of each `run_app` tick
(`src/ui/selector.rs`, lines 29-31). -/
def autoCloseStep (w : SystemUpdateWindow) : SystemUpdateWindow :=
  if w.should_auto_close then w.close false else w

/-! ## The selector application state (`src/ui/app.rs`) -/

structure App where
  items : List String
  filtered_items : List (String × Int)
  list_selected : Option Nat
  search_query : String
  selected_indices : List Nat
  multi : Bool
  preview_enabled : Bool
  preview : PreviewState
  layout : PreviewLayout
  update_window : SystemUpdateWindow
  help_visible : Bool
  help_scroll : Nat
  confirm_dialog : ConfirmDialog
  action_type : ActionType
  deriving Repr, DecidableEq

/-- The item under the cursor, if any. -/
def App.selectedItem (a : App) : Option String :=
  match a.list_selected with
  | none => none
  | some i => (a.filtered_items.get? i).map Prod.fst

/-- `App::request_preview`: a no-op when no preview command is configured;
otherwise acts on the preview state for the item under the cursor. -/
def App.request_preview (a : App) : App :=
  if a.preview_enabled then { a with preview := requestPreview a.preview a.selectedItem }
  else a

/-- `App::check_preview_updates`: drain the delivered preview results. -/
def App.check_preview_updates (a : App) (results : List (String × String)) : App :=
  { a with preview := results.foldl (fun s r => deliverPreview s r.1 r.2) a.preview }

/-- `App::new`. -/
def App.new (items : List String) (multi : Bool) (preview_enabled : Bool)
    (action_type : ActionType) : App :=
  let filtered := items.map (fun item => (item, (0 : Int)))
  App.request_preview
    { items := items
      filtered_items := filtered
      list_selected := if filtered.isEmpty then none else some 0
      search_query := ""
      selected_indices := []
      multi := multi
      preview_enabled := preview_enabled
      preview := { preview_cache := [], current_preview_item := none
                   preview_content := "", in_flight := [] }
      layout := .Vertical
      update_window := SystemUpdateWindow.new
      help_visible := false
      help_scroll := 0
      confirm_dialog := ConfirmDialog.new
      action_type := action_type }

/-- `App::filter_items`: recompute the filtered view, reset the cursor to the
first entry (or clear it when the view is empty), and refresh the preview. -/
def App.filter_items (fm : String → String → Option Int) (a : App) : App :=
  let filtered := filterItems fm a.items a.search_query
  App.request_preview
    { a with filtered_items := filtered
             list_selected := if filtered.isEmpty then none else some 0 }

/-- `App::next`. -/
def App.next (a : App) : App :=
  if a.filtered_items.isEmpty then a
  else
    let i :=
      match a.list_selected with
      | some i => if i ≥ a.filtered_items.length - 1 then 0 else i + 1
      | none => 0
    App.request_preview { a with list_selected := some i }

/-- `App::previous`. -/
def App.previous (a : App) : App :=
  if a.filtered_items.isEmpty then a
  else
    let i :=
      match a.list_selected with
      | some i => if i = 0 then a.filtered_items.length - 1 else i - 1
      | none => 0
    App.request_preview { a with list_selected := some i }

/-- `App::toggle_select`. -/
def App.toggle_select (a : App) : App :=
  if !a.multi then a
  else
    match a.list_selected with
    | none => a
    | some selected =>
      let a :=
        if a.selected_indices.contains selected then
          { a with selected_indices := a.selected_indices.filter (fun i => i ≠ selected) }
        else
          { a with selected_indices := a.selected_indices ++ [selected] }
      a.next

/-- `App::get_selected_items`. -/
def App.get_selected_items (a : App) : List String :=
  if a.multi then
    a.selected_indices.filterMap (fun i => (a.filtered_items.get? i).map Prod.fst)
  else
    match a.list_selected with
    | some i =>
      match a.filtered_items.get? i with
      | some p => [p.1]
      | none => []
    | none => []

/-! ## Keystroke dispatch of one `run_app` tick (`src/ui/selector.rs`) -/

inductive KeyCode
  | char (c : Char)
  | enter
  | esc
  | down
  | up
  | tab
  | backspace
  deriving Repr, DecidableEq

inductive KeyMods
  | none
  | shift
  | alt
  | control
  deriving Repr, DecidableEq

/-- The branch of `run_app` taken while the update window is active
(lines 47-57): only Alt+X does anything, and it closes the window only when
the operation has an error or is completed. -/
def handleUpdateKey (a : App) (k : KeyCode) (md : KeyMods) : App :=
  match k, md with
  | .char 'x', .alt =>
    if a.update_window.has_error || a.update_window.completed then
      { a with update_window := a.update_window.close true }
    else a
  | _, _ => a

/-- The branch of `run_app` taken while the confirmation dialog is active
(lines 60-84). The second component is the value returned from `run_app`
(`some pkgs` on confirmation). -/
def handleConfirmKey (a : App) (k : KeyCode) (md : KeyMods) :
    App × Option (List String) :=
  match k, md with
  | .char 'y', .none | .char 'y', .shift | .enter, _ =>
    let a2 := { a with confirm_dialog := a.confirm_dialog.confirm }
    (a2, some a2.confirm_dialog.packages)
  | .char 'n', .none | .char 'n', .shift | .esc, _ =>
    ({ a with confirm_dialog := a.confirm_dialog.cancel }, Option.none)
  | .down, _ | .char 'j', .none =>
    ({ a with confirm_dialog := a.confirm_dialog.scroll_down }, Option.none)
  | .up, _ | .char 'k', .none =>
    ({ a with confirm_dialog := a.confirm_dialog.scroll_up }, Option.none)
  | _, _ => (a, Option.none)

/-- The branch of `run_app` taken while the help screen is visible
(lines 87-105). -/
def handleHelpKey (a : App) (k : KeyCode) (md : KeyMods) : App :=
  match k, md with
  | .char '?', .none | .char '?', .shift | .esc, _ =>
    { a with help_visible := false, help_scroll := 0 }
  | .down, _ | .char 'j', .none =>
    { a with help_scroll := satAdd16 a.help_scroll }
  | .up, _ | .char 'k', .none =>
    { a with help_scroll := a.help_scroll - 1 }
  | _, _ => a

/-- The normal-mode branch of `run_app` (lines 107-186). `sudoOk` is the
outcome of the `sudo -v` check run for Ctrl+U. -/
def handleNormalKey (fm : String → String → Option Int) (sudoOk : Bool)
    (a : App) (k : KeyCode) (md : KeyMods) : App × Option (List String) :=
  match k, md with
  | .char '?', .none | .char '?', .shift =>
    ({ a with help_visible := true, help_scroll := 0 }, Option.none)
  | .esc, _ => (a, some [])
  | .enter, _ =>
    let selected := a.get_selected_items
    if selected.isEmpty then (a, Option.none)
    else ({ a with confirm_dialog := a.confirm_dialog.show a.action_type selected }, Option.none)
  | .char 'u', .control =>
    if sudoOk then ({ a with update_window := a.update_window.start_update }, Option.none)
    else (a, Option.none)
  | .down, _ | .char 'j', .none => (a.next, Option.none)
  | .up, _ | .char 'k', .none => (a.previous, Option.none)
  | .tab, _ => (a.toggle_select, Option.none)
  | .char 'o', .alt => ({ a with layout := .Horizontal }, Option.none)
  | .char 'v', .alt => ({ a with layout := .Vertical }, Option.none)
  | .char c, .none | .char c, .shift =>
    (App.filter_items fm { a with search_query := a.search_query.push c }, Option.none)
  | .backspace, _ =>
    (App.filter_items fm { a with search_query := dropLastChar a.search_query }, Option.none)
  | _, _ => (a, Option.none)

/-- The whole keystroke dispatch of one `run_app` tick (lines 44-187): the
active update window takes priority, then the confirmation dialog, then the
help overlay, then normal-mode handling. -/
def handleKey (fm : String → String → Option Int) (sudoOk : Bool)
    (a : App) (k : KeyCode) (md : KeyMods) : App × Option (List String) :=
  if a.update_window.active then (handleUpdateKey a k md, Option.none)
  else if a.confirm_dialog.active then handleConfirmKey a k md
  else if a.help_visible then (handleHelpKey a k md, Option.none)
  else handleNormalKey fm sudoOk a k md

/-- A tiny concrete stand-in for the skim fuzzy matcher, used to exercise the
filtering theorems on closed inputs: an exact match scores 2, a strict prefix
match scores 1, anything else does not match. -/
def sampleMatcher (item q : String) : Option Int :=
  if item = q then some 2
  else if q.data.isPrefixOf item.data then some 1
  else none

/-- A concrete selector state used to exercise the event-loop theorems:
two items, multi-select, no preview command. -/
def appBase : App := App.new ["alpha", "beta"] true false ActionType.Install

/-- `appBase` with the first filtered entry multi-selected. -/
def a7 : App := { appBase with selected_indices := [0] }

/-- `appBase` with the update window active and the operation still running. -/
def aUpd : App :=
  { appBase with update_window := { SystemUpdateWindow.new with active := true } }

/-- A completed-with-error update window. -/
def wErr : SystemUpdateWindow :=
  { SystemUpdateWindow.new with active := true, completed := true, has_error := true }

/-- `appBase` with an active update window whose operation failed. -/
def aErrWin : App := { appBase with update_window := wErr }

/-- `appBase` with the confirmation dialog active. -/
def aConf : App :=
  { appBase with confirm_dialog := ConfirmDialog.new.show ActionType.Install ["alpha"] }

/-- `appBase` with the help overlay visible. -/
def aHelp : App := { appBase with help_visible := true }

/-! ## Theorems -/

theorem fuzzyLE_trans : ∀ a b c : String × Int, fuzzyLE a b → fuzzyLE b c → fuzzyLE a c := by
  intro a b c hab hbc
  simp only [fuzzyLE, decide_eq_true_eq] at *
  omega

theorem fuzzyLE_total : ∀ a b : String × Int, fuzzyLE a b || fuzzyLE b a := by
  intro a b
  simp only [fuzzyLE, Bool.or_eq_true, decide_eq_true_eq]
  omega

/-- C1: for a non-empty search query, `filter_items` keeps exactly the items of
the full item list that the fuzzy matcher accepts, paired with their match
scores (a permutation of the in-order scored list `scoredOf`), sorted in
descending score order; and for every score, the entries holding that score
appear in their original list order (stability of the sort), so non-matching
items are excluded and ties keep their relative order. -/
theorem filterItems_nonempty_query_spec (fm : String → String → Option Int)
    (items : List String) (q : String) (hq : q ≠ "") :
    (filterItems fm items q).Perm (scoredOf fm items q) ∧
    (filterItems fm items q).Pairwise (fun a b : String × Int => b.2 ≤ a.2) ∧
    (∀ s : Int, (filterItems fm items q).filter (fun p => p.2 == s)
      = (scoredOf fm items q).filter (fun p => p.2 == s)) := by
  have hdef : filterItems fm items q = (scoredOf fm items q).mergeSort fuzzyLE := by
    simp [filterItems, hq]
  refine ⟨?_, ?_, ?_⟩
  · rw [hdef]
    exact List.mergeSort_perm _ _
  · rw [hdef]
    have h := List.sorted_mergeSort fuzzyLE_trans fuzzyLE_total (scoredOf fm items q)
    exact h.imp (fun hab => by simpa [fuzzyLE, decide_eq_true_eq] using hab)
  · intro s
    rw [hdef]
    have hcsub : List.Sublist ((scoredOf fm items q).filter (fun p => p.2 == s))
        (scoredOf fm items q) :=
      List.filter_sublist _
    have hcpw : ((scoredOf fm items q).filter (fun p => p.2 == s)).Pairwise
        (fun a b => fuzzyLE a b = true) := by
      apply List.pairwise_of_forall_mem_list
      intro a ha b hb
      have ha2 := (List.mem_filter.mp ha).2
      have hb2 := (List.mem_filter.mp hb).2
      simp only [beq_iff_eq] at ha2 hb2
      simp [fuzzyLE, ha2, hb2]
    have h1 := List.sublist_mergeSort fuzzyLE_trans fuzzyLE_total hcpw hcsub
    have h2 : ((scoredOf fm items q).filter (fun p => p.2 == s)).filter (fun p => p.2 == s)
        = (scoredOf fm items q).filter (fun p => p.2 == s) :=
      List.filter_eq_self.mpr (fun p hp => (List.mem_filter.mp hp).2)
    have h3 := h1.filter (fun p => p.2 == s)
    rw [h2] at h3
    have h4 := ((List.mergeSort_perm (scoredOf fm items q) fuzzyLE).filter
      (fun p => p.2 == s)).length_eq
    exact (h3.eq_of_length (by omega)).symm

/-- C1 witness: the filtering theorem applied to a concrete matcher, item list
and query. -/
theorem filterItems_nonempty_query_spec_witness :
    (filterItems sampleMatcher ["ab", "b", "a"] "a").Perm
      (scoredOf sampleMatcher ["ab", "b", "a"] "a") ∧
    (filterItems sampleMatcher ["ab", "b", "a"] "a").Pairwise
      (fun a b : String × Int => b.2 ≤ a.2) ∧
    (∀ s : Int, (filterItems sampleMatcher ["ab", "b", "a"] "a").filter (fun p => p.2 == s)
      = (scoredOf sampleMatcher ["ab", "b", "a"] "a").filter (fun p => p.2 == s)) :=
  filterItems_nonempty_query_spec sampleMatcher ["ab", "b", "a"] "a" (by decide)

/-- C6: for the empty search query, `filter_items` returns the full unfiltered
item list in its original order with score 0 for every item, through the
dedicated empty-query branch, which never consults the fuzzy matcher (so the
result is the same for any two matchers). -/
theorem filterItems_empty_query (fm fm' : String → String → Option Int)
    (items : List String) :
    filterItems fm items "" = items.map (fun item => (item, (0 : Int))) ∧
    filterItems fm items "" = filterItems fm' items "" :=
  ⟨rfl, rfl⟩

/-- C10: calling `PackageManager::install` or `PackageManager::remove` with an
empty package list returns `Ok(())` regardless of any child exit outcome, and
the spawned invocation is `none`: no subprocess is started. -/
theorem install_remove_empty_noop (use_yay : Bool) (status : Except String Bool) :
    install [] status = Except.ok () ∧
    remove [] status = Except.ok () ∧
    installInvocation use_yay [] = none ∧
    removeInvocation use_yay [] = none :=
  ⟨rfl, rfl, rfl, rfl⟩

/-- C2 counterexample: `PackageManager::search` never checks the exit status of
a successfully spawned subprocess; a non-zero exit with empty output yields the
normal result `Ok([])`, not an error message. -/
theorem search_ok_on_nonzero_exit :
    search (Except.ok { success := false, stdout := "" }) = Except.ok [] :=
  rfl

/-- C2 (amended): for the package-manager operations other than `search`
(list available, list installed, get package info, install, remove), a
subprocess that exits with a non-zero status makes the operation return an
error message string rather than a normal result. -/
theorem nonzero_exit_is_error (out : ProcOutput) (package : String)
    (packages : List String) (hfail : out.success = false) (hne : packages ≠ []) :
    list_available (Except.ok out) = Except.error "Package manager command failed" ∧
    list_installed (Except.ok out) = Except.error "Package manager command failed" ∧
    get_info package (Except.ok out) = Except.error ("Package not found: " ++ package) ∧
    install packages (Except.ok false) = Except.error "Installation failed" ∧
    remove packages (Except.ok false) = Except.error "Removal failed" := by
  have h1 : packages.isEmpty = false := by
    cases packages with
    | nil => exact absurd rfl hne
    | cons x xs => rfl
  refine ⟨?_, ?_, ?_, ?_, ?_⟩ <;>
    simp [list_available, list_installed, get_info, install, remove, hfail, h1]

/-- C2 witness: the amended theorem applied at a concrete failed exit. -/
theorem nonzero_exit_is_error_witness :
    list_available (Except.ok { success := false, stdout := "" }) =
      Except.error "Package manager command failed" ∧
    list_installed (Except.ok { success := false, stdout := "" }) =
      Except.error "Package manager command failed" ∧
    get_info "bash" (Except.ok { success := false, stdout := "" }) =
      Except.error ("Package not found: " ++ "bash") ∧
    install ["bash"] (Except.ok false) = Except.error "Installation failed" ∧
    remove ["bash"] (Except.ok false) = Except.error "Removal failed" :=
  nonzero_exit_is_error { success := false, stdout := "" } "bash" ["bash"] rfl
    (by decide)

/-- C8: a line of `pacman -Sl` output with at least three whitespace-separated
fields parses to exactly one `Package` with repository, name and version taken
from the first three fields and the description the remaining fields joined by
single spaces; a line with fewer than three fields parses to nothing. -/
theorem parseSlLine_spec (line : String) :
    (∀ r n v rest, splitWhitespace line = r :: n :: v :: rest →
      parseSlLine line = some (Package.mk n v (" ".intercalate rest) r)) ∧
    ((splitWhitespace line).length < 3 → parseSlLine line = none) := by
  constructor
  · intro r n v rest h
    simp [parseSlLine, h]
  · intro h
    simp only [parseSlLine]
    rw [if_neg (by omega)]

/-- C8 witness: the parse characterization applied to one well-formed and one
short sample line. -/
theorem parseSlLine_spec_witness :
    parseSlLine "core bash 5.2-2 The GNU shell" =
      some (Package.mk "bash" "5.2-2" (" ".intercalate ["The", "GNU", "shell"]) "core") ∧
    parseSlLine "core bash" = none := by
  constructor
  · exact (parseSlLine_spec _).1 "core" "bash" "5.2-2" ["The", "GNU", "shell"] (by decide)
  · exact (parseSlLine_spec _).2 (by decide)

/-- C9: `load_settings` is total and never propagates an error: when the config
path cannot be determined, the settings file does not exist, cannot be read, or
does not parse as valid settings JSON, it returns the default settings, whose
theme is `Theme::Default`. -/
theorem load_settings_never_fails (env : FsEnv) :
    (env.settings_path = none → load_settings env = Settings.default) ∧
    (env.file_exists = false → load_settings env = Settings.default) ∧
    (env.read_to_string = none → load_settings env = Settings.default) ∧
    (∀ content, env.read_to_string = some content →
      env.parse_settings content = none → load_settings env = Settings.default) ∧
    Settings.default.theme = Theme.Default := by
  obtain ⟨sp, fe, rts, ps⟩ := env
  refine ⟨?_, ?_, ?_, ?_, rfl⟩
  · intro h
    simp only at h
    simp [load_settings, h]
  · intro h
    simp only at h
    cases sp <;> simp [load_settings, h]
  · intro h
    simp only at h
    cases sp <;> cases fe <;> simp [load_settings, h]
  · intro content h hp
    simp only at h hp
    cases sp <;> cases fe <;> simp [load_settings, h, hp]

/-- C9 witness: the totality theorem applied at a concrete unreadable
environment and at a concrete environment whose file holds invalid JSON. -/
theorem load_settings_never_fails_witness :
    load_settings { settings_path := none, file_exists := false,
                    read_to_string := none, parse_settings := fun _ => none }
      = Settings.default ∧
    load_settings { settings_path := some "/home/user/.config/pmgr/settings.json",
                    file_exists := true, read_to_string := some "not json",
                    parse_settings := fun _ => none } = Settings.default :=
  ⟨(load_settings_never_fails _).1 rfl,
   (load_settings_never_fails _).2.2.2.1 "not json" rfl rfl⟩

/-- C3 counterexample: the reachable trace Down, Down from a freshly opened
two-item selector (each step runs `App::next`, which calls
`App::request_preview`) leaves two in-flight preview workers for item `"a"`:
the guard only remembers the most recent preview item, so re-selecting `"a"`
after visiting `"b"` spawns a second worker while the first is still running. -/
theorem preview_duplicate_in_flight :
    (App.new ["a", "b"] true true ActionType.Install).next.next.preview.in_flight
      = ["a", "b", "a"] ∧
    ¬ ((App.new ["a", "b"] true true ActionType.Install).next.next.preview.in_flight.count "a"
        ≤ 1) := by
  decide

/-- C3 (amended): `request_preview` spawns a new worker for the currently
selected item exactly when that item's preview is neither cached nor the
current preview item (the guard tracks only the most recent request, so a
still-in-flight item that is no longer current is fetched again), and it
always makes that item the current preview item; every result delivered by a
worker is inserted into the preview cache, but it updates the visible preview
pane only if its item is still the current preview item. -/
theorem preview_request_deliver_spec (s : PreviewState) (item content : String) :
    ((requestPreview s (some item)).in_flight =
      if (cacheLookup s.preview_cache item).isSome ∨ s.current_preview_item = some item
      then s.in_flight else item :: s.in_flight) ∧
    (requestPreview s (some item)).current_preview_item = some item ∧
    cacheLookup (deliverPreview s item content).preview_cache item = some content ∧
    ((deliverPreview s item content).preview_content =
      if s.current_preview_item = some item then content else s.preview_content) ∧
    (s.current_preview_item ≠ some item →
      (deliverPreview s item content).preview_content = s.preview_content) := by
  refine ⟨?_, ?_, ?_, ?_, ?_⟩
  · cases hc : cacheLookup s.preview_cache item with
    | some v => simp [requestPreview, hc]
    | none =>
      by_cases hcur : s.current_preview_item = some item
      · simp [requestPreview, hc, hcur]
      · simp [requestPreview, hc, hcur]
  · cases hc : cacheLookup s.preview_cache item with
    | some v => simp [requestPreview, hc]
    | none =>
      by_cases hcur : s.current_preview_item = some item
      · simp [requestPreview, hc, hcur]
      · simp [requestPreview, hc, hcur]
  · simp [deliverPreview, cacheInsert, cacheLookup]
  · simp [deliverPreview]
  · intro h
    simp [deliverPreview, h]

/-- C3 witness: the amended theorem applied at a concrete state in which the
selected item is not the current preview item, with one delivery for it. -/
theorem preview_request_deliver_spec_witness :
    (requestPreview
      { preview_cache := [], current_preview_item := some "b",
        preview_content := "", in_flight := [] } (some "a")).in_flight = ["a"] ∧
    (deliverPreview
      { preview_cache := [], current_preview_item := some "b",
        preview_content := "", in_flight := [] } "a" "c").preview_content = "" := by
  have h := preview_request_deliver_spec
    { preview_cache := [], current_preview_item := some "b",
      preview_content := "", in_flight := [] } "a" "c"
  exact ⟨by simpa using h.1, h.2.2.2.2 (by decide)⟩

theorem handleUpdateKey_ignores (a : App) (k : KeyCode) (md : KeyMods)
    (h : ¬(k = KeyCode.char 'x' ∧ md = KeyMods.alt)) : handleUpdateKey a k md = a := by
  unfold handleUpdateKey
  split
  · exact absurd ⟨rfl, rfl⟩ h
  · rfl

theorem handleConfirmKey_preserves (a : App) (k : KeyCode) (md : KeyMods) :
    (handleConfirmKey a k md).1.items = a.items ∧
    (handleConfirmKey a k md).1.filtered_items = a.filtered_items ∧
    (handleConfirmKey a k md).1.list_selected = a.list_selected ∧
    (handleConfirmKey a k md).1.search_query = a.search_query ∧
    (handleConfirmKey a k md).1.selected_indices = a.selected_indices ∧
    (handleConfirmKey a k md).1.preview = a.preview ∧
    (handleConfirmKey a k md).1.layout = a.layout ∧
    (handleConfirmKey a k md).1.update_window = a.update_window ∧
    (handleConfirmKey a k md).1.help_visible = a.help_visible ∧
    (handleConfirmKey a k md).1.help_scroll = a.help_scroll := by
  unfold handleConfirmKey
  split <;> simp

theorem handleHelpKey_preserves (a : App) (k : KeyCode) (md : KeyMods) :
    (handleHelpKey a k md).items = a.items ∧
    (handleHelpKey a k md).filtered_items = a.filtered_items ∧
    (handleHelpKey a k md).list_selected = a.list_selected ∧
    (handleHelpKey a k md).search_query = a.search_query ∧
    (handleHelpKey a k md).selected_indices = a.selected_indices ∧
    (handleHelpKey a k md).preview = a.preview ∧
    (handleHelpKey a k md).layout = a.layout ∧
    (handleHelpKey a k md).update_window = a.update_window ∧
    (handleHelpKey a k md).confirm_dialog = a.confirm_dialog := by
  unfold handleHelpKey
  split <;> simp

/-- C4: keystroke dispatch in `run_app` follows the strict priority
update window, then confirmation dialog, then help overlay, then normal-mode
handling, and a higher-priority modal fully suppresses lower-priority input:
while the update window is active every key other than Alt+X leaves the state
untouched and returns nothing; while the confirmation dialog is active no
component other than the dialog itself changes; while the help overlay is
visible no component other than the help fields changes. -/
theorem modal_dispatch_priority (fm : String → String → Option Int) (sudoOk : Bool)
    (a : App) (k : KeyCode) (md : KeyMods) :
    (a.update_window.active = true → ¬(k = KeyCode.char 'x' ∧ md = KeyMods.alt) →
      handleKey fm sudoOk a k md = (a, none)) ∧
    (a.update_window.active = false → a.confirm_dialog.active = true →
      ((handleKey fm sudoOk a k md).1.items = a.items ∧
       (handleKey fm sudoOk a k md).1.filtered_items = a.filtered_items ∧
       (handleKey fm sudoOk a k md).1.list_selected = a.list_selected ∧
       (handleKey fm sudoOk a k md).1.search_query = a.search_query ∧
       (handleKey fm sudoOk a k md).1.selected_indices = a.selected_indices ∧
       (handleKey fm sudoOk a k md).1.preview = a.preview ∧
       (handleKey fm sudoOk a k md).1.layout = a.layout ∧
       (handleKey fm sudoOk a k md).1.update_window = a.update_window ∧
       (handleKey fm sudoOk a k md).1.help_visible = a.help_visible ∧
       (handleKey fm sudoOk a k md).1.help_scroll = a.help_scroll)) ∧
    (a.update_window.active = false → a.confirm_dialog.active = false →
      a.help_visible = true →
      ((handleKey fm sudoOk a k md).2 = none ∧
       (handleKey fm sudoOk a k md).1.items = a.items ∧
       (handleKey fm sudoOk a k md).1.filtered_items = a.filtered_items ∧
       (handleKey fm sudoOk a k md).1.list_selected = a.list_selected ∧
       (handleKey fm sudoOk a k md).1.search_query = a.search_query ∧
       (handleKey fm sudoOk a k md).1.selected_indices = a.selected_indices ∧
       (handleKey fm sudoOk a k md).1.preview = a.preview ∧
       (handleKey fm sudoOk a k md).1.layout = a.layout ∧
       (handleKey fm sudoOk a k md).1.update_window = a.update_window ∧
       (handleKey fm sudoOk a k md).1.confirm_dialog = a.confirm_dialog)) := by
  refine ⟨?_, ?_, ?_⟩
  · intro hu hk
    simp [handleKey, hu, handleUpdateKey_ignores a k md hk]
  · intro hu hc
    have hd : handleKey fm sudoOk a k md = handleConfirmKey a k md := by
      simp [handleKey, hu, hc]
    rw [hd]
    exact handleConfirmKey_preserves a k md
  · intro hu hc hh
    have hd : handleKey fm sudoOk a k md = (handleHelpKey a k md, none) := by
      simp [handleKey, hu, hc, hh]
    rw [hd]
    exact ⟨rfl, handleHelpKey_preserves a k md⟩

/-- C4 witness: the dispatch theorem applied at concrete modal states — an
active update window ignoring Escape, an active confirmation dialog leaving
the search query alone under Tab, and a visible help overlay leaving the
confirmation dialog alone under a letter key. -/
theorem modal_dispatch_priority_witness :
    handleKey sampleMatcher true aUpd KeyCode.esc KeyMods.none = (aUpd, none) ∧
    (handleKey sampleMatcher true aConf KeyCode.tab KeyMods.none).1.search_query
      = aConf.search_query ∧
    (handleKey sampleMatcher true aHelp (KeyCode.char 'q') KeyMods.none).1.confirm_dialog
      = aHelp.confirm_dialog := by
  refine ⟨(modal_dispatch_priority sampleMatcher true aUpd KeyCode.esc KeyMods.none).1
      (by decide) (by decide), ?_, ?_⟩
  · exact ((modal_dispatch_priority sampleMatcher true aConf KeyCode.tab KeyMods.none).2.1
      (by decide) (by decide)).2.2.2.1
  · exact (((modal_dispatch_priority sampleMatcher true aHelp (KeyCode.char 'q')
      KeyMods.none).2.2 (by decide) (by decide) (by decide)).2.2.2.2.2.2.2.2.2)

/-- C5: the long-running-operation window auto-closes exactly when the
operation completed without error (`should_auto_close` is true iff `completed`
and not `has_error`); on a completed-with-error operation the per-tick
auto-close step leaves the window untouched (it stays open), and Alt+X closes
it, Alt+X being accepted only once the operation has an error or is completed
and doing nothing before that. -/
theorem update_window_close_spec (fm : String → String → Option Int) (sudoOk : Bool)
    (a : App) (w : SystemUpdateWindow) :
    (w.should_auto_close = true ↔ (w.completed = true ∧ w.has_error = false)) ∧
    (w.completed = true → w.has_error = true → autoCloseStep w = w) ∧
    (a.update_window.active = true →
      (a.update_window.has_error || a.update_window.completed) = true →
      (handleKey fm sudoOk a (KeyCode.char 'x') KeyMods.alt).1.update_window.active
        = false) ∧
    (a.update_window.active = true →
      (a.update_window.has_error || a.update_window.completed) = false →
      handleKey fm sudoOk a (KeyCode.char 'x') KeyMods.alt = (a, none)) := by
  refine ⟨?_, ?_, ?_, ?_⟩
  · simp [SystemUpdateWindow.should_auto_close, Bool.and_eq_true]
  · intro h1 h2
    simp [autoCloseStep, SystemUpdateWindow.should_auto_close, h1, h2]
  · intro ha hcond
    simp [handleKey, ha, handleUpdateKey, hcond, SystemUpdateWindow.close]
  · intro ha hcond
    simp [handleKey, ha, handleUpdateKey, hcond]

/-- C5 witness: the close theorem applied at a concrete failed window (stays
open, Alt+X closes it) and at a concrete still-running window (Alt+X does
nothing). -/
theorem update_window_close_spec_witness :
    (wErr.should_auto_close = true ↔ (wErr.completed = true ∧ wErr.has_error = false)) ∧
    autoCloseStep wErr = wErr ∧
    (handleKey sampleMatcher true aErrWin (KeyCode.char 'x') KeyMods.alt).1.update_window.active
      = false ∧
    handleKey sampleMatcher true aUpd (KeyCode.char 'x') KeyMods.alt = (aUpd, none) := by
  refine ⟨(update_window_close_spec sampleMatcher true aErrWin wErr).1,
    (update_window_close_spec sampleMatcher true aErrWin wErr).2.1 (by decide) (by decide),
    (update_window_close_spec sampleMatcher true aErrWin wErr).2.2.1 (by decide) (by decide),
    (update_window_close_spec sampleMatcher true aUpd wErr).2.2.2 (by decide) (by decide)⟩

theorem filter_items_fields (fm : String → String → Option Int) (a : App) :
    (a.filter_items fm).selected_indices = a.selected_indices ∧
    (a.filter_items fm).multi = a.multi ∧
    (a.filter_items fm).filtered_items = filterItems fm a.items a.search_query ∧
    (a.filter_items fm).list_selected =
      (if (filterItems fm a.items a.search_query).isEmpty then none else some 0) := by
  obtain ⟨it, fi, ls, sq, si, mu, pe, pv, ly, uw, hv, hsc, cd, act⟩ := a
  unfold App.filter_items App.request_preview
  cases pe <;> exact ⟨rfl, rfl, rfl, rfl⟩

theorem get_selected_items_multi (a : App) (h : a.multi = true) :
    a.get_selected_items =
      a.selected_indices.filterMap (fun i => (a.filtered_items.get? i).map Prod.fst) := by
  simp [App.get_selected_items, h]

/-- C7: multi-select indices are not stable across refiltering. `filter_items`
replaces the filtered view and resets the cursor while leaving
`selected_indices` unchanged, so after the query changes the same index set can
denote different underlying items: concretely, in `a7` index 0 denotes
`"alpha"`, and after typing query `"z"` (which nothing matches) the unchanged
selection `[0]` points past the new filtered length and is silently dropped,
so `get_selected_items` returns a different set of items than before. -/
theorem refilter_selection_instability (fm : String → String → Option Int)
    (hz1 : fm "alpha" "z" = none) (hz2 : fm "beta" "z" = none) :
    (∀ a : App,
      (a.filter_items fm).selected_indices = a.selected_indices ∧
      (a.filter_items fm).list_selected =
        (if (filterItems fm a.items a.search_query).isEmpty then none else some 0)) ∧
    a7.get_selected_items = ["alpha"] ∧
    (App.filter_items fm { a7 with search_query := "z" }).selected_indices = [0] ∧
    (App.filter_items fm { a7 with search_query := "z" }).get_selected_items = [] := by
  have hs : scoredOf fm ["alpha", "beta"] "z" = [] := by
    simp [scoredOf, hz1, hz2]
  have hfil : filterItems fm ["alpha", "beta"] "z" = [] := by
    unfold filterItems
    rw [if_neg (by decide), hs]
    simp
  have hfields := filter_items_fields fm { a7 with search_query := "z" }
  have hm : (App.filter_items fm { a7 with search_query := "z" }).multi = true := by
    rw [hfields.2.1]
    rfl
  refine ⟨fun a => ⟨(filter_items_fields fm a).1, (filter_items_fields fm a).2.2.2⟩,
    by decide, ?_, ?_⟩
  · rw [hfields.1]
    rfl
  · rw [get_selected_items_multi _ hm, hfields.1, hfields.2.2.1]
    have hi : ({ a7 with search_query := "z" } : App).items = ["alpha", "beta"] := rfl
    have hq : ({ a7 with search_query := "z" } : App).search_query = "z" := rfl
    rw [hi, hq, hfil]
    decide

/-- C7 witness: the instability theorem applied at the concrete prefix
matcher, which matches nothing against the query `"z"`. -/
theorem refilter_selection_instability_witness :
    a7.get_selected_items = ["alpha"] ∧
    (App.filter_items sampleMatcher { a7 with search_query := "z" }).selected_indices = [0] ∧
    (App.filter_items sampleMatcher { a7 with search_query := "z" }).get_selected_items = [] := by
  have h := refilter_selection_instability sampleMatcher (by decide) (by decide)
  exact ⟨h.2.1, h.2.2.1, h.2.2.2⟩

end Pmgr
